import Mathlib

/-!
Verification of the popup-placement and usage-bar-rendering core of the
CodexBar Cinnamon tray script (`Scripts/codexbar_cinnamon_tray.py`).

The placement logic lives in `DashboardWindow.present_near_pointer` and
`DashboardWindow.present_from_icon_geometry`; the bar renderer is
`CodexBarTray._window_text`, and the dashboard provider card is
`DashboardWindow._provider_card`.  All pixel geometry is integral
(GDK rectangles and pointer coordinates), so the placement functions are
embedded over `Int`; Python `//` is floor division, embedded as `Int.fdiv`.
The source binds `margin = 8` locally; the embedding takes the margin as a
parameter and the source's behaviour is the instance at `margin = 8`.
-/

namespace CodexBar

/-- A GDK rectangle: monitor geometry or a tray icon's bounding box. -/
structure Rect where
  x : Int
  y : Int
  width : Int
  height : Int
deriving DecidableEq, Repr

/-- A point: pointer position or a popup's computed top-left corner. -/
structure Pt where
  x : Int
  y : Int
deriving DecidableEq, Repr

/-- A popup size (the window's width/height as used by the placement code). -/
structure Size where
  width : Int
  height : Int
deriving DecidableEq, Repr

/-- The clamp expression both placement functions end with:
`max(min_bound, min(target, max_bound))`. -/
def clampInt (lo v hi : Int) : Int := max lo (min v hi)

/-- Pre-clamp pointer-mode target (`present_near_pointer`, lines 266-271):
`target_x = px - width + 24`; `target_y = py - height - margin` when
`py > monitor.y + monitor.height // 2`, else `py + margin`. -/
def rawPointer (anchor : Pt) (size : Size) (monitor : Rect) (margin : Int) : Pt :=
  let target_x := anchor.x - size.width + 24
  let target_y :=
    if anchor.y > monitor.y + monitor.height.fdiv 2 then
      anchor.y - size.height - margin
    else
      anchor.y + margin
  ⟨target_x, target_y⟩

/-- The shared final clamp step (lines 273-279 and 310-315):
`x` into `[monitor.x + margin, monitor.x + monitor.width - width - margin]`,
`y` into `[monitor.y + margin, monitor.y + monitor.height - height - margin]`. -/
def clampToMonitor (target : Pt) (size : Size) (monitor : Rect) (margin : Int) : Pt :=
  let min_x := monitor.x + margin
  let max_x := monitor.x + monitor.width - size.width - margin
  let min_y := monitor.y + margin
  let max_y := monitor.y + monitor.height - size.height - margin
  ⟨clampInt min_x target.x max_x, clampInt min_y target.y max_y⟩

/-- `DashboardWindow.present_near_pointer`: the point the popup is moved to,
as a function of pointer position, popup size, monitor geometry and margin. -/
def presentNearPointer (anchor : Pt) (size : Size) (monitor : Rect) (margin : Int) : Pt :=
  clampToMonitor (rawPointer anchor size monitor margin) size monitor margin

/-- Pre-clamp rectangle-mode target (`present_from_icon_geometry`, lines 301-308):
`target_x = area.x + area.width // 2 - width // 2`; `target_y` prefers above
(`area.y - height - margin`) and flips below (`area.y + area.height + margin`)
when the above placement is `< monitor.y + margin`. -/
def rawIconGeometry (area : Rect) (size : Size) (monitor : Rect) (margin : Int) : Pt :=
  let icon_center_x := area.x + area.width.fdiv 2
  let target_x := icon_center_x - size.width.fdiv 2
  let above_y := area.y - size.height - margin
  let target_y :=
    if above_y < monitor.y + margin then area.y + area.height + margin else above_y
  ⟨target_x, target_y⟩

/-- `DashboardWindow.present_from_icon_geometry`: the point the popup is moved
to, as a function of the icon rectangle, popup size, monitor and margin. -/
def presentFromIconGeometry (area : Rect) (size : Size) (monitor : Rect) (margin : Int) : Pt :=
  clampToMonitor (rawIconGeometry area size monitor margin) size monitor margin

theorem clampInt_lower (lo v hi : Int) : lo ≤ clampInt lo v hi :=
  le_max_left _ _

theorem clampInt_upper (lo v hi : Int) (h : lo ≤ hi) : clampInt lo v hi ≤ hi :=
  max_le h (min_le_right _ _)

theorem clampInt_of_inverted (lo v hi : Int) (h : hi < lo) : clampInt lo v hi = lo :=
  max_eq_left (le_of_lt (lt_of_le_of_lt (min_le_right v hi) h))

/-- Bridge between Python's `//` (floor division, `Int.fdiv`) by 2 and exact
midpoint comparison: `py > y + h // 2` holds iff `py` exceeds the exact
vertical midpoint `y + h/2`. -/
theorem gt_add_fdiv_two_iff (py y h : Int) :
    py > y + h.fdiv 2 ↔ 2 * (py - y) > h := by
  have h1 := Int.fmod_add_fdiv h 2
  have h2 : 0 ≤ h.fmod 2 := Int.fmod_nonneg' h (by norm_num)
  have h3 : h.fmod 2 < 2 := Int.fmod_lt_of_pos h (by norm_num)
  omega

theorem clampToMonitor_bounds (t : Pt) (size : Size) (monitor : Rect) (margin : Int)
    (hw : size.width + 2 * margin ≤ monitor.width)
    (hh : size.height + 2 * margin ≤ monitor.height) :
    monitor.x + margin ≤ (clampToMonitor t size monitor margin).x ∧
    (clampToMonitor t size monitor margin).x ≤ monitor.x + monitor.width - size.width - margin ∧
    monitor.y + margin ≤ (clampToMonitor t size monitor margin).y ∧
    (clampToMonitor t size monitor margin).y ≤ monitor.y + monitor.height - size.height - margin := by
  refine ⟨clampInt_lower _ _ _, clampInt_upper _ _ _ (by omega),
    clampInt_lower _ _ _, clampInt_upper _ _ _ (by omega)⟩

/-! ## The usage-bar renderer (`CodexBarTray._window_text`)

Python numbers (`int`/`float`) are embedded as rationals; Python 3's `round`
(round half to even, banker's rounding) is embedded as `pyRound`.  Every
float value the script meets at the inputs studied here is computed exactly,
so the rational embedding agrees with the float evaluation. -/

/-- Python 3 `round(q)`: nearest integer, ties to the even integer. -/
def pyRound (q : ℚ) : Int :=
  if q - ⌊q⌋ < 1/2 then ⌊q⌋
  else if 1/2 < q - ⌊q⌋ then ⌊q⌋ + 1
  else if ⌊q⌋ % 2 = 0 then ⌊q⌋ else ⌊q⌋ + 1

theorem pyRound_le_floor_add_one (q : ℚ) : pyRound q ≤ ⌊q⌋ + 1 := by
  unfold pyRound; split_ifs <;> omega

theorem floor_le_pyRound (q : ℚ) : ⌊q⌋ ≤ pyRound q := by
  unfold pyRound; split_ifs <;> omega

theorem pyRound_intCast (n : Int) : pyRound (n : ℚ) = n := by
  unfold pyRound
  rw [Int.floor_intCast, if_pos (by rw [sub_self]; norm_num)]

theorem int_le_pyRound {n : Int} {q : ℚ} (h : (n : ℚ) ≤ q) : n ≤ pyRound q :=
  le_trans (Int.le_floor.mpr h) (floor_le_pyRound q)

theorem pyRound_le_int {n : Int} {q : ℚ} (h : q ≤ (n : ℚ)) : pyRound q ≤ n := by
  rcases eq_or_lt_of_le h with heq | hlt
  · rw [heq, pyRound_intCast]
  · have hf : ⌊q⌋ < n := Int.floor_lt.mpr hlt
    have := pyRound_le_floor_add_one q
    omega

theorem pyRound_mono {q r : ℚ} (h : q ≤ r) : pyRound q ≤ pyRound r := by
  rcases lt_or_eq_of_le (Int.floor_le_floor h) with hf | hf
  · have h1 := pyRound_le_floor_add_one q
    have h2 := floor_le_pyRound r
    omega
  · have hfrac : q - (⌊r⌋ : ℚ) ≤ r - (⌊r⌋ : ℚ) := sub_le_sub_right h _
    unfold pyRound
    rw [hf]
    split_ifs <;> first | omega | linarith

/-- A Python number as `isinstance(v, (int, float))` accepts it: every `int`
and every finite `float` is a `finite` rational, and the three non-finite
floats — which `json.loads` produces from the `NaN` / `Infinity` /
`-Infinity` literals and which the `isinstance` check at line 637 still
classifies as numeric — are `nan`, `inf` and `negInf`. -/
inductive PyNum where
  | finite (q : ℚ)
  | nan
  | inf
  | negInf
deriving DecidableEq

/-- The exceptions `round` can raise on a non-finite float:
`ValueError` ("cannot convert float NaN to integer") and `OverflowError`
("cannot convert float infinity to integer"). -/
inductive PyExc where
  | valueError
  | overflowError
deriving DecidableEq

/-- Python `100 - used` on a number: exact on finite values,
`100 - nan = nan`, `100 - inf = -inf`, `100 - (-inf) = inf`. -/
def pySub100 : PyNum → PyNum
  | PyNum.finite q => PyNum.finite (100 - q)
  | PyNum.nan => PyNum.nan
  | PyNum.inf => PyNum.negInf
  | PyNum.negInf => PyNum.inf

/-- Python `round(v)` on a number: `pyRound` on finite values; raises
`ValueError` on NaN and `OverflowError` on the infinities. -/
def pyRoundF : PyNum → Except PyExc Int
  | PyNum.finite q => Except.ok (pyRound q)
  | PyNum.nan => Except.error PyExc.valueError
  | PyNum.inf => Except.error PyExc.overflowError
  | PyNum.negInf => Except.error PyExc.overflowError

/-- A Python value as the script's JSON-driven dictionaries hold it.
`num` covers `int` and `float` (the two cases `isinstance(v, (int, float))`
accepts, non-finite floats included); `str` covers strings; `null`/`other`
cover `None` and any other shape, which every numeric/string check in the
script rejects. -/
inductive JVal where
  | num (v : PyNum)
  | str (s : String)
  | null
  | other
deriving DecidableEq

/-- A usage-window dictionary: the two keys `_window_text` reads, plus the
rest of the dictionary (`extra`), which `_window_text` never touches. -/
structure UsageWindow where
  usedPercent : Option JVal := none
  resetDescription : Option JVal := none
  extra : List (String × JVal) := []
deriving DecidableEq

/-- Python `f"{s:<w}"`: left-justify, pad with spaces on the right. -/
def padRight (s : String) (w : Nat) : String :=
  s ++ String.mk (List.replicate (w - s.length) ' ')

/-- Python `f"{v:>w}"`: right-justify, pad with spaces on the left. -/
def padLeft (s : String) (w : Nat) : String :=
  String.mk (List.replicate (w - s.length) ' ') ++ s

/-- `remaining = max(0, min(100, int(round(100 - used))))` (line 639). -/
def remainingOf (used : ℚ) : Int := max 0 (min 100 (pyRound (100 - used)))

/-- `filled = max(0, min(10, int(round(remaining / 10))))` (line 640);
`remaining / 10` is Python true division of an `int`, hence an exact (always
finite) rational division, and this second `round` cannot raise. -/
def filledFromRemaining (remaining : Int) : Int :=
  max 0 (min 10 (pyRound ((remaining : ℚ) / 10)))

/-- The filled count as a function of a finite `usedPercent`. -/
def filledOf (used : ℚ) : Int := filledFromRemaining (remainingOf used)

/-- `bar = "█" * filled + "·" * (10 - filled)` (line 641); Python string
repetition by a negative count yields the empty string, as `Int.toNat` does. -/
def barOf (filled : Int) : String :=
  String.mk (List.replicate filled.toNat '█') ++ String.mk (List.replicate (10 - filled).toNat '·')

/-- The shared part of both return f-strings of `_window_text`:
`f"{title:<8} {remaining:>3}%  {bar}"`. -/
def windowCore (title : String) (remaining filled : Int) : String :=
  padRight title 8 ++ " " ++ padLeft (toString remaining) 3 ++ "%  " ++ barOf filled

/-- Lines 640-645 of `_window_text`, given the `remaining` value line 639
computed: the filled count, the bar, and the two return f-strings. -/
def windowTextRest (title : String) (window : UsageWindow) (remaining : Int) : String :=
  let filled := filledFromRemaining remaining
  let core := windowCore title remaining filled
  match window.resetDescription with
  | some (JVal.str d) => if d = "" then core else core ++ "  ↺ " ++ d
  | _ => core

/-- `CodexBarTray._window_text` (lines 634-645).  The result is
`Except PyExc String` because line 639's `int(round(100 - used))` raises
`ValueError` when `used` is NaN and `OverflowError` when it is ±Infinity —
values the `isinstance` guard at line 637 lets through; every other path
returns a string. -/
def windowText (title : String) (window : UsageWindow) : Except PyExc String :=
  match window.usedPercent with
  | some (JVal.num used) =>
    match pyRoundF (pySub100 used) with
    | Except.ok r => Except.ok (windowTextRest title window (max 0 (min 100 r)))
    | Except.error e => Except.error e
  | _ => Except.ok (title ++ ": --")

/-- On a finite `usedPercent` the renderer succeeds, with `remaining` as in
`remainingOf`. -/
theorem windowText_finite (title : String) (w : UsageWindow) (q : ℚ)
    (hu : w.usedPercent = some (JVal.num (PyNum.finite q))) :
    windowText title w = Except.ok (windowTextRest title w (remainingOf q)) := by
  simp only [windowText, hu, pySub100, pyRoundF]
  rfl

/-- On a non-finite `usedPercent` the renderer raises: `ValueError` for NaN,
`OverflowError` for either infinity (line 639). -/
theorem windowText_nonfinite (title : String) (w : UsageWindow) (v : PyNum)
    (hu : w.usedPercent = some (JVal.num v)) (hv : ∀ q : ℚ, v ≠ PyNum.finite q) :
    windowText title w
      = Except.error (if v = PyNum.nan then PyExc.valueError else PyExc.overflowError) := by
  cases v with
  | finite q => exact absurd rfl (hv q)
  | nan => simp [windowText, hu, pySub100, pyRoundF]
  | inf => simp [windowText, hu, pySub100, pyRoundF]
  | negInf => simp [windowText, hu, pySub100, pyRoundF]

/-! ## The dashboard provider card (`DashboardWindow._provider_card`) -/

/-- `CodexBarTray._provider_title` (lines 647-669). -/
def providerTitle (pid : String) : String :=
  match pid with
  | "codex" => "Codex"
  | "claude" => "Claude"
  | "cursor" => "Cursor"
  | "opencode" => "OpenCode"
  | "factory" => "Droid"
  | "gemini" => "Gemini"
  | "antigravity" => "Antigravity"
  | "copilot" => "Copilot"
  | "zai" => "z.ai"
  | "minimax" => "MiniMax"
  | "kimi" => "Kimi"
  | "kiro" => "Kiro"
  | "vertexai" => "Vertex AI"
  | "augment" => "Augment"
  | "jetbrains" => "JetBrains AI"
  | "kimik2" => "Kimi K2"
  | "amp" => "Amp"
  | "synthetic" => "Synthetic"
  | _ => pid

/-- An `error` dictionary; `message` is the string under the `"message"` key
(absent when the key is missing, in which case the code shows `"unknown"`). -/
structure ErrorInfo where
  message : Option String := none
deriving DecidableEq

/-- A `credits` dictionary with its `remaining` value. -/
structure Credits where
  remaining : Option JVal := none
deriving DecidableEq

/-- A `usage` dictionary: the three keys the card reads. -/
structure Usage where
  primary : Option UsageWindow := none
  secondary : Option UsageWindow := none
  accountEmail : Option JVal := none
deriving DecidableEq

/-- A provider record as `_provider_card` reads it. -/
structure Payload where
  provider : String := "unknown"
  error : Option ErrorInfo := none
  usage : Option Usage := none
  credits : Option Credits := none
deriving DecidableEq

/-- One visual element the provider card packs into its body, by content. -/
inductive CardItem where
  | titleLine (name : String)
  | errorLine (text : String)
  | windowRow (title : String) (w : UsageWindow)
  | creditsLine (remaining : PyNum)
  | accountLine (email : String)
deriving DecidableEq

/-- `DashboardWindow._provider_card` (lines 348-387), as the list of content
items packed into the card, in order. -/
def providerCard (payload : Payload) : List CardItem :=
  let name := providerTitle payload.provider
  match payload.error with
  | some err =>
    [CardItem.titleLine name, CardItem.errorLine ("Error: " ++ err.message.getD "unknown")]
  | none =>
    let usage := payload.usage.getD {}
    let base := [CardItem.titleLine name,
      CardItem.windowRow "Session" (usage.primary.getD {}),
      CardItem.windowRow "Weekly" (usage.secondary.getD {})]
    let withCredits :=
      match payload.credits with
      | some c =>
        match c.remaining with
        | some (JVal.num v) => base ++ [CardItem.creditsLine v]
        | _ => base
      | none => base
    match usage.accountEmail with
    | some (JVal.str e) => if e = "" then withCredits else withCredits ++ [CardItem.accountLine e]
    | _ => withCredits

/-- If `t` is not a suffix of `u` at the character level, no string `r`
satisfies `r ++ t = u`. -/
theorem no_append_eq (t u : String) (h : ¬ (t.data <:+ u.data)) :
    ∀ r : String, r ++ t ≠ u := by
  intro r hr
  exact h ⟨r.data, by rw [← String.data_append, hr]⟩

/-! ## Renderer facts shared between claims -/

theorem windowText_of_not_num (title : String) (w : UsageWindow)
    (h : ∀ v : PyNum, w.usedPercent ≠ some (JVal.num v)) :
    windowText title w = Except.ok (title ++ ": --") := by
  rcases hu : w.usedPercent with _ | jv
  · simp [windowText, hu]
  · cases jv with
    | num v => exact absurd hu (h v)
    | str s => simp [windowText, hu]
    | null => simp [windowText, hu]
    | other => simp [windowText, hu]

theorem remainingOf_nonneg (u : ℚ) : 0 ≤ remainingOf u := le_max_left _ _

theorem remainingOf_le_100 (u : ℚ) : remainingOf u ≤ 100 :=
  max_le (by norm_num) (min_le_left _ _)

theorem remainingOf_antitone {u1 u2 : ℚ} (h : u1 ≤ u2) :
    remainingOf u2 ≤ remainingOf u1 := by
  have := pyRound_mono (sub_le_sub_left h (100 : ℚ))
  unfold remainingOf
  omega

theorem filledOf_antitone {u1 u2 : ℚ} (h : u1 ≤ u2) : filledOf u2 ≤ filledOf u1 := by
  have hr : remainingOf u2 ≤ remainingOf u1 := remainingOf_antitone h
  have hq : ((remainingOf u2 : ℚ) / 10) ≤ ((remainingOf u1 : ℚ) / 10) := by
    have hc : (remainingOf u2 : ℚ) ≤ (remainingOf u1 : ℚ) := by exact_mod_cast hr
    linarith
  have := pyRound_mono hq
  unfold filledOf filledFromRemaining
  omega

/-! ## Claim theorems -/

/-- C1: for every pointer anchor, icon rectangle, popup size, (non-negative)
margin and monitor with `popupSize + 2*margin ≤ monitor size` on each axis,
both placement modes return a point whose x lies in
`[monitor.x + margin, monitor.x + monitor.width - popupSize.width - margin]`
and whose y lies in the analogous vertical interval, and hence the full popup
rectangle `[p, p + popupSize]` is contained in the monitor rectangle.
(The source always calls the placement with `margin = 8`.) -/
theorem c1_placement_contained (p : Pt) (a : Rect) (size : Size) (monitor : Rect) (margin : Int)
    (hm : 0 ≤ margin)
    (hw : size.width + 2 * margin ≤ monitor.width)
    (hh : size.height + 2 * margin ≤ monitor.height) :
    (monitor.x + margin ≤ (presentNearPointer p size monitor margin).x ∧
     (presentNearPointer p size monitor margin).x
        ≤ monitor.x + monitor.width - size.width - margin ∧
     monitor.y + margin ≤ (presentNearPointer p size monitor margin).y ∧
     (presentNearPointer p size monitor margin).y
        ≤ monitor.y + monitor.height - size.height - margin) ∧
    (monitor.x ≤ (presentNearPointer p size monitor margin).x ∧
     (presentNearPointer p size monitor margin).x + size.width ≤ monitor.x + monitor.width ∧
     monitor.y ≤ (presentNearPointer p size monitor margin).y ∧
     (presentNearPointer p size monitor margin).y + size.height ≤ monitor.y + monitor.height) ∧
    (monitor.x + margin ≤ (presentFromIconGeometry a size monitor margin).x ∧
     (presentFromIconGeometry a size monitor margin).x
        ≤ monitor.x + monitor.width - size.width - margin ∧
     monitor.y + margin ≤ (presentFromIconGeometry a size monitor margin).y ∧
     (presentFromIconGeometry a size monitor margin).y
        ≤ monitor.y + monitor.height - size.height - margin) ∧
    (monitor.x ≤ (presentFromIconGeometry a size monitor margin).x ∧
     (presentFromIconGeometry a size monitor margin).x + size.width
        ≤ monitor.x + monitor.width ∧
     monitor.y ≤ (presentFromIconGeometry a size monitor margin).y ∧
     (presentFromIconGeometry a size monitor margin).y + size.height
        ≤ monitor.y + monitor.height) := by
  obtain ⟨a1, a2, a3, a4⟩ :=
    clampToMonitor_bounds (rawPointer p size monitor margin) size monitor margin hw hh
  obtain ⟨b1, b2, b3, b4⟩ :=
    clampToMonitor_bounds (rawIconGeometry a size monitor margin) size monitor margin hw hh
  unfold presentNearPointer presentFromIconGeometry
  exact ⟨⟨a1, a2, a3, a4⟩, ⟨by omega, by omega, by omega, by omega⟩,
    ⟨b1, b2, b3, b4⟩, ⟨by omega, by omega, by omega, by omega⟩⟩

/-- Witness for C1 at the source's `margin = 8`, on a 1000×800 monitor with a
300×400 popup and a corner-hugging pointer and icon. -/
theorem c1_placement_contained_w :
    (0 : Int) ≤ 8 ∧ (300 : Int) + 2 * 8 ≤ 1000 ∧ (400 : Int) + 2 * 8 ≤ 800 ∧
    ((0 : Int) + 8 ≤ (presentNearPointer ⟨999, 799⟩ ⟨300, 400⟩ ⟨0, 0, 1000, 800⟩ 8).x ∧
     (presentNearPointer ⟨999, 799⟩ ⟨300, 400⟩ ⟨0, 0, 1000, 800⟩ 8).x ≤ 0 + 1000 - 300 - 8 ∧
     (0 : Int) + 8 ≤ (presentNearPointer ⟨999, 799⟩ ⟨300, 400⟩ ⟨0, 0, 1000, 800⟩ 8).y ∧
     (presentNearPointer ⟨999, 799⟩ ⟨300, 400⟩ ⟨0, 0, 1000, 800⟩ 8).y ≤ 0 + 800 - 400 - 8) :=
  ⟨by decide, by decide, by decide,
    (c1_placement_contained ⟨999, 799⟩ ⟨0, 780, 20, 20⟩ ⟨300, 400⟩ ⟨0, 0, 1000, 800⟩ 8
      (by decide) (by decide) (by decide)).1⟩

/-- C2 counterexample: at monitor `{0,0,1000,800}`, pointer `(900,700)`,
popup `{300,400}`, margin `8`, the pointer's y = 700 exceeds the midpoint 400,
so the code places the popup above (`y = 700 - 400 - 8 = 292`), not below;
the result is `(624, 292)`, not the claimed `(624, 392)`. -/
theorem c2_pointer_example_cex :
    presentNearPointer ⟨900, 700⟩ ⟨300, 400⟩ ⟨0, 0, 1000, 800⟩ 8 ≠ ⟨624, 392⟩ := by
  decide

/-- C2 (amended): with the same inputs, the pre-clamp target is
`x = 900 - 300 + 24 = 624`, `y = 700 - 400 - 8 = 292` (above, since 700 > 400),
both already inside the clamp intervals `[8, 692]` and `[8, 392]`, so the
final placement is `(624, 292)`. -/
theorem c2_pointer_example :
    rawPointer ⟨900, 700⟩ ⟨300, 400⟩ ⟨0, 0, 1000, 800⟩ 8 = ⟨624, 292⟩ ∧
    presentNearPointer ⟨900, 700⟩ ⟨300, 400⟩ ⟨0, 0, 1000, 800⟩ 8 = ⟨624, 292⟩ := by
  decide

/-- C3: rectangle mode's pre-clamp placement centres the popup on the anchor's
horizontal midpoint (`x = anchor.x + anchor.width // 2 - popupSize.width // 2`,
`//` being Python floor division), prefers above
(`y = anchor.y - popupSize.height - margin`), and flips to below
(`y = anchor.y + anchor.height + margin`) exactly when the above placement is
`< monitor.y + margin`; on monitor `{0,0,1000,40}`, anchor `{100,0,20,40}`,
popup `{200,300}`, margin `8` the above placement `-308 < 8` flips and yields
`y = 0 + 40 + 8 = 48`. -/
theorem c3_icon_mode_raw (area : Rect) (size : Size) (monitor : Rect) (margin : Int) :
    ((rawIconGeometry area size monitor margin).x
        = area.x + area.width.fdiv 2 - size.width.fdiv 2) ∧
    ((rawIconGeometry area size monitor margin).y
        = if area.y - size.height - margin < monitor.y + margin
          then area.y + area.height + margin
          else area.y - size.height - margin) ∧
    (rawIconGeometry ⟨100, 0, 20, 40⟩ ⟨200, 300⟩ ⟨0, 0, 1000, 40⟩ 8).y = 48 := by
  exact ⟨rfl, rfl, by decide⟩

/-- C4: pointer mode's pre-clamp placement always sets
`x = anchor.x - popupSize.width + 24`, and places above exactly when the
pointer's y exceeds the monitor's vertical midpoint (the code's
`py > monitor.y + monitor.height // 2` is equivalent to
`2 * (py - monitor.y) > monitor.height`), below otherwise. -/
theorem c4_pointer_mode_raw (p : Pt) (size : Size) (monitor : Rect) (margin : Int) :
    ((rawPointer p size monitor margin).x = p.x - size.width + 24) ∧
    ((rawPointer p size monitor margin).y
        = if 2 * (p.y - monitor.y) > monitor.height
          then p.y - size.height - margin
          else p.y + margin) := by
  refine ⟨rfl, ?_⟩
  have hx : (rawPointer p size monitor margin).y
      = if p.y > monitor.y + monitor.height.fdiv 2
        then p.y - size.height - margin
        else p.y + margin := rfl
  rw [hx]
  by_cases h : 2 * (p.y - monitor.y) > monitor.height
  · rw [if_pos h, if_pos ((gt_add_fdiv_two_iff _ _ _).mpr h)]
  · rw [if_neg h, if_neg (fun hc => h ((gt_add_fdiv_two_iff _ _ _).mp hc))]

/-- C10: when the monitor is strictly too small on an axis
(`monitor extent < popup extent + 2*margin`, i.e. the clamp bounds invert),
the clamp expression returns the min bound `monitor origin + margin` on that
axis for every target value, so both placement modes still return a point,
pinned to the monitor's top-left margin corner on that axis, for every
anchor. -/
theorem c10_degenerate_pinned (t p : Pt) (a : Rect) (size : Size) (monitor : Rect)
    (margin : Int) :
    (monitor.width < size.width + 2 * margin →
      clampInt (monitor.x + margin) t.x (monitor.x + monitor.width - size.width - margin)
          = monitor.x + margin ∧
      (presentNearPointer p size monitor margin).x = monitor.x + margin ∧
      (presentFromIconGeometry a size monitor margin).x = monitor.x + margin) ∧
    (monitor.height < size.height + 2 * margin →
      clampInt (monitor.y + margin) t.y (monitor.y + monitor.height - size.height - margin)
          = monitor.y + margin ∧
      (presentNearPointer p size monitor margin).y = monitor.y + margin ∧
      (presentFromIconGeometry a size monitor margin).y = monitor.y + margin) := by
  constructor
  · intro h
    exact ⟨clampInt_of_inverted _ _ _ (by omega),
      clampInt_of_inverted _ _ _ (by omega),
      clampInt_of_inverted _ _ _ (by omega)⟩
  · intro h
    exact ⟨clampInt_of_inverted _ _ _ (by omega),
      clampInt_of_inverted _ _ _ (by omega),
      clampInt_of_inverted _ _ _ (by omega)⟩

/-- Witness for C10 on a 100×50 monitor (too small for a 300×400 popup with
margin 8 on both axes): both modes pin the popup to `(8, 8)`. -/
theorem c10_degenerate_pinned_w :
    ((100 : Int) < 300 + 2 * 8 ∧ (50 : Int) < 400 + 2 * 8) ∧
    (presentNearPointer ⟨1, 2⟩ ⟨300, 400⟩ ⟨0, 0, 100, 50⟩ 8).x = 0 + 8 ∧
    (presentNearPointer ⟨1, 2⟩ ⟨300, 400⟩ ⟨0, 0, 100, 50⟩ 8).y = 0 + 8 ∧
    (presentFromIconGeometry ⟨3, 4, 5, 6⟩ ⟨300, 400⟩ ⟨0, 0, 100, 50⟩ 8).x = 0 + 8 ∧
    (presentFromIconGeometry ⟨3, 4, 5, 6⟩ ⟨300, 400⟩ ⟨0, 0, 100, 50⟩ 8).y = 0 + 8 :=
  ⟨⟨by decide, by decide⟩,
    ((c10_degenerate_pinned ⟨7, 9⟩ ⟨1, 2⟩ ⟨3, 4, 5, 6⟩ ⟨300, 400⟩ ⟨0, 0, 100, 50⟩ 8).1
        (by decide)).2.1,
    ((c10_degenerate_pinned ⟨7, 9⟩ ⟨1, 2⟩ ⟨3, 4, 5, 6⟩ ⟨300, 400⟩ ⟨0, 0, 100, 50⟩ 8).2
        (by decide)).2.1,
    ((c10_degenerate_pinned ⟨7, 9⟩ ⟨1, 2⟩ ⟨3, 4, 5, 6⟩ ⟨300, 400⟩ ⟨0, 0, 100, 50⟩ 8).1
        (by decide)).2.2,
    ((c10_degenerate_pinned ⟨7, 9⟩ ⟨1, 2⟩ ⟨3, 4, 5, 6⟩ ⟨300, 400⟩ ⟨0, 0, 100, 50⟩ 8).2
        (by decide)).2.2⟩

/-- C5 counterexample: at `usedPercent = 27/5` (= 5.4, inside [0,100]) the
code's filled count is 10 — `remaining = round(94.6) = 95`, then
`round(95/10) = round(9.5) = 10` (ties to even) — while the claim's
single-rounded formula `round((100 - usedPercent)/100 * 10) = round(9.46)`
gives 9; the two disagree. -/
theorem c5_bar_cex :
    ((0 : ℚ) ≤ 27/5 ∧ (27 : ℚ)/5 ≤ 100) ∧
    filledOf (27/5) = 10 ∧
    pyRound ((100 - 27/5) / 100 * 10) = 9 ∧
    filledOf (27/5) ≠ pyRound ((100 - 27/5) / 100 * 10) := by
  have h1 : remainingOf (27/5) = 95 := by norm_num [remainingOf, pyRound]
  have h2 : filledOf (27/5) = 10 := by
    simp only [filledOf, filledFromRemaining, h1]
    norm_num [pyRound]
  have h3 : pyRound ((100 - 27/5) / 100 * 10) = 9 := by norm_num [pyRound]
  refine ⟨⟨by norm_num, by norm_num⟩, h2, h3, ?_⟩
  rw [h2, h3]
  decide

/-- C5 (amended): for `usedPercent ∈ [0,100]` the code's `remaining` equals
the claim's `round(clamp(100 - usedPercent, 0, 100))` and its `filled` equals
the claim's `round(clamp(remaining/100 * 10, 0, 10))`; the bar is exactly
`filled` filled glyphs followed by `10 - filled` empty glyphs; the filled
count is monotonically non-increasing in `usedPercent`; but the closed form
for `filled` is the double-rounded `round(round(100 - usedPercent)/10)`,
which can differ from the claim's `round((100 - usedPercent)/100 * 10)`
by one (the code rounds `100 - usedPercent` to an integer first). -/
theorem c5_bar_filled (used : ℚ) (h0 : 0 ≤ used) (h100 : used ≤ 100) :
    remainingOf used = pyRound (max 0 (min 100 (100 - used))) ∧
    filledOf used = pyRound (max 0 (min 10 ((remainingOf used : ℚ) / 100 * 10))) ∧
    filledOf used = pyRound ((pyRound (100 - used) : ℚ) / 10) ∧
    (∀ (title : String) (w : UsageWindow),
      w.usedPercent = some (JVal.num (PyNum.finite used)) →
      ∃ s1 s2 : String, windowText title w
        = Except.ok (s1 ++ (String.mk (List.replicate (filledOf used).toNat '█')
            ++ String.mk (List.replicate (10 - filledOf used).toNat '·')) ++ s2)) ∧
    (∀ used2 : ℚ, used ≤ used2 → filledOf used2 ≤ filledOf used) := by
  have hcl1 : max (0 : ℚ) (min 100 (100 - used)) = 100 - used := by
    rw [min_eq_right (by linarith), max_eq_right (by linarith)]
  have hlo : (0 : Int) ≤ pyRound (100 - used) := int_le_pyRound (by push_cast; linarith)
  have hhi : pyRound (100 - used) ≤ (100 : Int) := pyRound_le_int (by push_cast; linarith)
  have hrem : remainingOf used = pyRound (100 - used) := by
    unfold remainingOf
    omega
  have hR0 := remainingOf_nonneg used
  have hR100 := remainingOf_le_100 used
  have hq0 : (0 : ℚ) ≤ (remainingOf used : ℚ) / 10 := by
    apply div_nonneg _ (by norm_num)
    exact_mod_cast hR0
  have hq10 : (remainingOf used : ℚ) / 10 ≤ 10 := by
    rw [div_le_iff₀ (by norm_num)]
    exact_mod_cast (by omega : remainingOf used ≤ (10 : Int) * 10)
  have hf0 : (0 : Int) ≤ pyRound ((remainingOf used : ℚ) / 10) :=
    int_le_pyRound (by push_cast at hq0 ⊢; linarith)
  have hf10 : pyRound ((remainingOf used : ℚ) / 10) ≤ (10 : Int) :=
    pyRound_le_int (by push_cast at hq10 ⊢; linarith)
  refine ⟨by rw [hcl1, hrem], ?_, ?_, ?_, fun u2 h => filledOf_antitone h⟩
  · have hcl2 : max (0 : ℚ) (min 10 ((remainingOf used : ℚ) / 100 * 10))
        = (remainingOf used : ℚ) / 10 := by
      rw [show (remainingOf used : ℚ) / 100 * 10 = (remainingOf used : ℚ) / 10 by ring,
        min_eq_right hq10, max_eq_right hq0]
    rw [hcl2]
    unfold filledOf filledFromRemaining
    omega
  · rw [← hrem]
    unfold filledOf filledFromRemaining
    omega
  · intro title w hw
    have hfol : filledFromRemaining (remainingOf used) = filledOf used := rfl
    have hcore : windowCore title (remainingOf used) (filledOf used)
        = (padRight title 8 ++ " " ++ padLeft (toString (remainingOf used)) 3 ++ "%  ")
          ++ (String.mk (List.replicate (filledOf used).toNat '█')
              ++ String.mk (List.replicate (10 - filledOf used).toNat '·')) := rfl
    rw [windowText_finite title w used hw]
    rcases hrd : w.resetDescription with _ | jv
    · refine ⟨padRight title 8 ++ " " ++ padLeft (toString (remainingOf used)) 3 ++ "%  ",
        "", congrArg Except.ok ?_⟩
      simp only [windowTextRest, hrd, hfol, hcore, String.append_empty]
    · cases jv with
      | num v =>
        refine ⟨padRight title 8 ++ " " ++ padLeft (toString (remainingOf used)) 3 ++ "%  ",
          "", congrArg Except.ok ?_⟩
        simp only [windowTextRest, hrd, hfol, hcore, String.append_empty]
      | str d =>
        by_cases hd : d = ""
        · refine ⟨padRight title 8 ++ " " ++ padLeft (toString (remainingOf used)) 3 ++ "%  ",
            "", congrArg Except.ok ?_⟩
          simp only [windowTextRest, hrd, hfol]
          rw [if_pos hd, hcore, String.append_empty]
        · refine ⟨padRight title 8 ++ " " ++ padLeft (toString (remainingOf used)) 3 ++ "%  ",
            "  ↺ " ++ d, congrArg Except.ok ?_⟩
          simp only [windowTextRest, hrd, hfol, if_neg hd, hcore, String.append_assoc]
      | null =>
        refine ⟨padRight title 8 ++ " " ++ padLeft (toString (remainingOf used)) 3 ++ "%  ",
          "", congrArg Except.ok ?_⟩
        simp only [windowTextRest, hrd, hfol, hcore, String.append_empty]
      | other =>
        refine ⟨padRight title 8 ++ " " ++ padLeft (toString (remainingOf used)) 3 ++ "%  ",
          "", congrArg Except.ok ?_⟩
        simp only [windowTextRest, hrd, hfol, hcore, String.append_empty]

/-- Witness for C5 (amended) at `usedPercent = 37`: the double-rounded closed
form evaluates through the theorem. -/
theorem c5_bar_filled_w :
    ((0 : ℚ) ≤ 37 ∧ (37 : ℚ) ≤ 100) ∧
    filledOf 37 = pyRound ((pyRound (100 - 37) : ℚ) / 10) ∧
    filledOf 37 = 6 :=
  ⟨⟨by norm_num, by norm_num⟩,
    (c5_bar_filled 37 (by norm_num) (by norm_num)).2.2.1,
    by
      have h1 : remainingOf 37 = 63 := by norm_num [remainingOf, pyRound]
      simp only [filledOf, filledFromRemaining, h1]
      norm_num [pyRound]⟩

/-- C6: whenever `usedPercent` is absent or not numeric, `_window_text`
returns exactly `"{title}: --"`, for every title and regardless of every
other field of the record. -/
theorem c6_sentinel (title : String) (w : UsageWindow)
    (h : ∀ v : PyNum, w.usedPercent ≠ some (JVal.num v)) :
    windowText title w = Except.ok (title ++ ": --") :=
  windowText_of_not_num title w h

/-- Witness for C6: a record whose `usedPercent` is JSON `null`, with a
reset description and extra fields present. -/
theorem c6_sentinel_w :
    windowText "Weekly" ⟨some JVal.null, some (JVal.str "soon"), [("note", JVal.other)]⟩
      = Except.ok "Weekly: --" :=
  c6_sentinel "Weekly" ⟨some JVal.null, some (JVal.str "soon"), [("note", JVal.other)]⟩
    (fun v h => by simp at h)

/-- C7 counterexample: with `usedPercent = 37`, `resetDescription = "in 2h"`,
the renderer returns `"Session   63%  ██████····  ↺ in 2h"` — the appended
suffix is `"  ↺ in 2h"`, and no string `r` satisfies
`r ++ " resets in 2h" = result`, so the result does not end with the claimed
`" resets {resetDescription}"`. -/
theorem c7_reset_suffix_cex :
    windowText "Session" ⟨some (JVal.num (PyNum.finite 37)), some (JVal.str "in 2h"), []⟩
      = Except.ok "Session   63%  ██████····  ↺ in 2h" ∧
    ∀ r : String, r ++ " resets in 2h" ≠ "Session   63%  ██████····  ↺ in 2h" := by
  constructor
  · have h1 : remainingOf 37 = 63 := by norm_num [remainingOf, pyRound]
    have h2 : filledFromRemaining 63 = 6 := by norm_num [filledFromRemaining, pyRound]
    rw [windowText_finite "Session"
      ⟨some (JVal.num (PyNum.finite 37)), some (JVal.str "in 2h"), []⟩ 37 rfl, h1]
    refine congrArg Except.ok ?_
    simp only [windowTextRest, h2]
    decide
  · exact no_append_eq _ _ (by decide)

/-- C7 (amended): for every record with finite numeric `usedPercent` and a
present, non-empty `resetDescription` string, the renderer's result is the
bar line followed by the suffix `"  ↺ {resetDescription}"` (not
`" resets {resetDescription}"`); the bar line
`windowCore title remaining filled` carries the `filled` filled glyphs and
`10 - filled` empty glyphs. -/
theorem c7_reset_suffix (title d : String) (used : ℚ) (w : UsageWindow)
    (hu : w.usedPercent = some (JVal.num (PyNum.finite used)))
    (hr : w.resetDescription = some (JVal.str d)) (hd : d ≠ "") :
    windowText title w
      = Except.ok (windowCore title (remainingOf used) (filledOf used) ++ "  ↺ " ++ d) := by
  rw [windowText_finite title w used hu]
  refine congrArg Except.ok ?_
  have hfol : filledFromRemaining (remainingOf used) = filledOf used := rfl
  simp only [windowTextRest, hr, hfol]
  rw [if_neg hd]

/-- Witness for C7 (amended) at `usedPercent = 37`, `resetDescription = "in 2h"`. -/
theorem c7_reset_suffix_w :
    windowText "Session" ⟨some (JVal.num (PyNum.finite 37)), some (JVal.str "in 2h"), []⟩
      = Except.ok (windowCore "Session" (remainingOf 37) (filledOf 37) ++ "  ↺ " ++ "in 2h") :=
  c7_reset_suffix "Session" "in 2h" 37
    ⟨some (JVal.num (PyNum.finite 37)), some (JVal.str "in 2h"), []⟩ rfl rfl (by decide)

/-- C8: a provider record whose `error` dictionary carries a `message` makes
the provider card short-circuit: the card is exactly the provider title line
and the `"Error: {message}"` line, and the card is a function of the
`provider` and `error` fields only — the `usage` and `credits` fields are
never read. -/
theorem c8_error_short_circuit (p : Payload) (e : ErrorInfo) (msg : String)
    (he : p.error = some e) (hm : e.message = some msg) :
    providerCard p
      = [CardItem.titleLine (providerTitle p.provider),
         CardItem.errorLine ("Error: " ++ msg)] ∧
    ∀ q : Payload, q.provider = p.provider → q.error = p.error →
      providerCard q = providerCard p := by
  have key : ∀ r : Payload, r.error = some e →
      providerCard r = [CardItem.titleLine (providerTitle r.provider),
        CardItem.errorLine ("Error: " ++ msg)] := by
    intro r hr
    simp only [providerCard, hr, hm, Option.getD_some]
  refine ⟨key p he, ?_⟩
  intro q hqp hqe
  rw [key q (by rw [hqe, he]), key p he, hqp]

/-- Witness for C8: an erroring `codex` record whose usage, credits and email
fields are populated but ignored. -/
theorem c8_error_short_circuit_w :
    providerCard ⟨"codex", some ⟨some "boom"⟩,
        some ⟨some ⟨some (JVal.num (PyNum.finite 50)), none, []⟩, none, some (JVal.str "a@b.c")⟩,
        some ⟨some (JVal.num (PyNum.finite 3))⟩⟩
      = [CardItem.titleLine (providerTitle "codex"),
         CardItem.errorLine ("Error: " ++ "boom")] :=
  (c8_error_short_circuit ⟨"codex", some ⟨some "boom"⟩,
      some ⟨some ⟨some (JVal.num (PyNum.finite 50)), none, []⟩, none, some (JVal.str "a@b.c")⟩,
      some ⟨some (JVal.num (PyNum.finite 3))⟩⟩ ⟨some "boom"⟩ "boom" rfl rfl).1

/-- C9 counterexample: `usedPercent = NaN` is a float, so the `isinstance`
guard at line 637 classifies it numeric, and `round(100 - nan)` at line 639
raises `ValueError` — the renderer fails instead of returning a value, so it
is not total and "never raising" does not hold (`json.loads` produces NaN
from the `NaN` literal, so the input is reachable). -/
theorem c9_total_pure_cex :
    windowText "Session" ⟨some (JVal.num PyNum.nan), none, []⟩
      = Except.error PyExc.valueError ∧
    ∀ s : String,
      windowText "Session" ⟨some (JVal.num PyNum.nan), none, []⟩ ≠ Except.ok s := by
  have he : windowText "Session" ⟨some (JVal.num PyNum.nan), none, []⟩
      = Except.error PyExc.valueError := rfl
  refine ⟨he, fun s h => ?_⟩
  rw [he] at h
  exact Except.noConfusion h

/-- C9 (amended): both utilities are pure deterministic functions (equal
inputs give equal outputs) and the placement is total; the renderer returns a
value for every record whose `usedPercent` is absent, non-numeric, or a
finite number — malformed or missing numeric fields degrade to the
`"{title}: --"` sentinel — but it raises `ValueError` when `usedPercent` is
NaN and `OverflowError` when it is ±Infinity, the non-finite floats that pass
the `isinstance` check yet make `round` raise at line 639. -/
theorem c9_pure_with_nonfinite_raise :
    (∀ (title : String) (w : UsageWindow),
        (∀ v : PyNum, w.usedPercent ≠ some (JVal.num v)) →
        windowText title w = Except.ok (title ++ ": --")) ∧
    (∀ (title : String) (w : UsageWindow) (q : ℚ),
        w.usedPercent = some (JVal.num (PyNum.finite q)) →
        ∃ s : String, windowText title w = Except.ok s) ∧
    (∀ (title : String) (w : UsageWindow),
        w.usedPercent = some (JVal.num PyNum.nan) →
        windowText title w = Except.error PyExc.valueError) ∧
    (∀ (title : String) (w : UsageWindow) (v : PyNum),
        (v = PyNum.inf ∨ v = PyNum.negInf) →
        w.usedPercent = some (JVal.num v) →
        windowText title w = Except.error PyExc.overflowError) ∧
    (∀ (t1 t2 : String) (w1 w2 : UsageWindow), t1 = t2 → w1 = w2 →
        windowText t1 w1 = windowText t2 w2) ∧
    (∀ (p1 p2 : Pt) (s1 s2 : Size) (m1 m2 : Rect) (g1 g2 : Int),
        p1 = p2 → s1 = s2 → m1 = m2 → g1 = g2 →
        presentNearPointer p1 s1 m1 g1 = presentNearPointer p2 s2 m2 g2) ∧
    (∀ (a1 a2 : Rect) (s1 s2 : Size) (m1 m2 : Rect) (g1 g2 : Int),
        a1 = a2 → s1 = s2 → m1 = m2 → g1 = g2 →
        presentFromIconGeometry a1 s1 m1 g1 = presentFromIconGeometry a2 s2 m2 g2) := by
  refine ⟨windowText_of_not_num, ?_, ?_, ?_, ?_, ?_, ?_⟩
  · intro title w q hu
    exact ⟨windowTextRest title w (remainingOf q), windowText_finite title w q hu⟩
  · intro title w hu
    have h := windowText_nonfinite title w PyNum.nan hu (fun q hq => PyNum.noConfusion hq)
    simpa using h
  · intro title w v hv hu
    rcases hv with h | h
    · subst h
      have h2 := windowText_nonfinite title w PyNum.inf hu (fun q hq => PyNum.noConfusion hq)
      simpa using h2
    · subst h
      have h2 := windowText_nonfinite title w PyNum.negInf hu (fun q hq => PyNum.noConfusion hq)
      simpa using h2
  · intro t1 t2 w1 w2 ht hw
    rw [ht, hw]
  · intro p1 p2 s1 s2 m1 m2 g1 g2 h1 h2 h3 h4
    rw [h1, h2, h3, h4]
  · intro a1 a2 s1 s2 m1 m2 g1 g2 h1 h2 h3 h4
    rw [h1, h2, h3, h4]

/-- Witness for C9 (amended): sentinel at an absent `usedPercent`, success at
finite 37, `ValueError` at NaN, `OverflowError` at Infinity, and determinism
of a concrete pointer placement. -/
theorem c9_pure_with_nonfinite_raise_w :
    windowText "Session" ⟨none, none, []⟩ = Except.ok "Session: --" ∧
    (∃ s : String, windowText "Session"
        ⟨some (JVal.num (PyNum.finite 37)), none, []⟩ = Except.ok s) ∧
    windowText "Session" ⟨some (JVal.num PyNum.nan), none, []⟩
      = Except.error PyExc.valueError ∧
    windowText "Session" ⟨some (JVal.num PyNum.inf), none, []⟩
      = Except.error PyExc.overflowError ∧
    presentNearPointer ⟨1, 2⟩ ⟨3, 4⟩ ⟨0, 0, 9, 9⟩ 8
      = presentNearPointer ⟨1, 2⟩ ⟨3, 4⟩ ⟨0, 0, 9, 9⟩ 8 :=
  ⟨c9_pure_with_nonfinite_raise.1 "Session" ⟨none, none, []⟩
      (fun _ h => Option.noConfusion h),
   c9_pure_with_nonfinite_raise.2.1 "Session"
      ⟨some (JVal.num (PyNum.finite 37)), none, []⟩ 37 rfl,
   c9_pure_with_nonfinite_raise.2.2.1 "Session"
      ⟨some (JVal.num PyNum.nan), none, []⟩ rfl,
   c9_pure_with_nonfinite_raise.2.2.2.1 "Session"
      ⟨some (JVal.num PyNum.inf), none, []⟩ PyNum.inf (Or.inl rfl) rfl,
   c9_pure_with_nonfinite_raise.2.2.2.2.2.1 ⟨1, 2⟩ ⟨1, 2⟩ ⟨3, 4⟩ ⟨3, 4⟩
      ⟨0, 0, 9, 9⟩ ⟨0, 0, 9, 9⟩ 8 8 rfl rfl rfl rfl⟩

end CodexBar
